import Mathlib

/-
Verification of the sqnice (sqlite3pp) access layer: the nested
transaction/savepoint coordinator (`database::beginTransaction` /
`database::endTransaction` in sqnice/database.cc), connection close
(`database::close`), the error-checking layer (`checking::check` /
`checking::raise`), and the statement cache and connection pool contracts.

Machine-level C++ is embedded shallowly: the engine (SQLite) is an oracle
assigning a result status to each SQL string executed during one call, plus
the boolean observed by `in_transaction()`; exceptions become an explicit
`Outcome`; the `int txn_depth_` field is an `Int`.
-/

namespace Sqnice

/-- SQLite result codes as used by sqnice; `enum class status` mirrors the
`SQLITE_...` macros (values asserted by `static_assert`s in database.cc). -/
inductive Status where
  | ok
  | error
  | internal
  | perm
  | abort
  | busy
  | locked
  | nomem
  | readonly
  | interrupt
  | ioerr
  | corrupt
  | cantopen
  | constraint
  | mismatch
  | misuse
  | auth
  | range
  | notice
  | warning
  | row
  | done
deriving DecidableEq, Repr

/-- Numeric value of each status code (the `SQLITE_...` macro values). -/
def Status.code : Status → Nat
  | .ok => 0
  | .error => 1
  | .internal => 2
  | .perm => 3
  | .abort => 4
  | .busy => 5
  | .locked => 6
  | .nomem => 7
  | .readonly => 8
  | .interrupt => 9
  | .ioerr => 10
  | .corrupt => 11
  | .cantopen => 14
  | .constraint => 19
  | .mismatch => 20
  | .misuse => 21
  | .auth => 23
  | .range => 25
  | .notice => 27
  | .warning => 28
  | .row => 100
  | .done => 101

/-- Success test `ok(status)` from sqnice/base.hh: a status is successful iff
it is `status::ok`. (database.cc's `check` handles `done` and `row` inside
the `!ok(rc)` branch, which fixes this reading: they are not `ok`.) -/
def statusOk (rc : Status) : Bool := rc == Status.ok

/-- The C++ exceptions raised by the library (`std::logic_error`,
`std::invalid_argument`, `std::bad_alloc`, `sqnice::database_error`). -/
inductive CppException where
  | logicError (msg : String)
  | invalidArgument (msg : String)
  | badAlloc
  | databaseError (msg : String) (rc : Status)
deriving DecidableEq, Repr

/-- How one call to a `status`-returning member function finishes: a normal
return carrying the status, or a thrown C++ exception. -/
inductive Outcome where
  | returned (rc : Status)
  | threw (e : CppException)
deriving DecidableEq, Repr

/-- The engine oracle for one call: `exec sql` is the status that
`command(sql).execute()` yields for that SQL string during the call, and
`inTxn` is what `in_transaction()` (i.e. `!sqlite3_get_autocommit`) reports
at its single observation point inside the call. -/
structure Engine where
  exec : String → Status
  inTxn : Bool

/-- The transaction-related mutable state of a `database` object:
`int txn_depth_ = 0; bool txn_immediate_ = false;` (database.hh). -/
structure TxnState where
  txn_depth : Int
  txn_immediate : Bool
deriving DecidableEq, Repr

/-- Freshly constructed `database`: `txn_depth_ = 0`, `txn_immediate_ = false`. -/
def TxnState.init : TxnState := ⟨0, false⟩

/-- Result of one transaction call: the outcome (returned status or thrown
exception), the `database` state when the call exits, and the list of SQL
statements issued to the engine, in order. -/
structure TxnResult where
  outcome : Outcome
  state : TxnState
  trace : List String
deriving DecidableEq, Repr

/-- The string built by `snprintf(sql, _, "SAVEPOINT sp_%d", n)`. -/
def spSql (n : Int) : String := "SAVEPOINT sp_" ++ toString n

/-- The string built by `snprintf(sql, _, "ROLLBACK TO SAVEPOINT sp_%d", n)`. -/
def rollbackToSql (n : Int) : String := "ROLLBACK TO SAVEPOINT sp_" ++ toString n

/-- The string built by `snprintf(sql, _, "RELEASE SAVEPOINT sp_%d", n)`. -/
def releaseSql (n : Int) : String := "RELEASE SAVEPOINT sp_" ++ toString n

/-- Second half of `database::beginTransaction` (database.cc): issue
`SAVEPOINT sp_<depth+1>`; on failure, if at depth 0 in immediate mode, issue
`ROLLBACK` (result ignored) and return the error; on success increment
`txn_depth_` and return ok. -/
def beginSavepointStep (eng : Engine) (db : TxnState) (immediate : Bool)
    (trace : List String) : TxnResult :=
  if statusOk (eng.exec (spSql (db.txn_depth + 1))) then
    ⟨Outcome.returned Status.ok, {db with txn_depth := db.txn_depth + 1},
      trace ++ [spSql (db.txn_depth + 1)]⟩
  else if db.txn_depth = 0 ∧ immediate = true then
    ⟨Outcome.returned (eng.exec (spSql (db.txn_depth + 1))), db,
      trace ++ [spSql (db.txn_depth + 1), "ROLLBACK"]⟩
  else
    ⟨Outcome.returned (eng.exec (spSql (db.txn_depth + 1))), db,
      trace ++ [spSql (db.txn_depth + 1)]⟩

/-- Embeds `database::beginTransaction(bool immediate)` (database.cc). At depth 0:
in immediate mode, throw `std::logic_error` if the engine already reports an
open transaction, else issue `BEGIN IMMEDIATE` and return its status on
failure; then record `txn_immediate_ = immediate`. In every case proceed to
the `SAVEPOINT sp_<depth+1>` step. -/
def beginTransaction (eng : Engine) (db : TxnState) (immediate : Bool) : TxnResult :=
  if db.txn_depth = 0 then
    if immediate then
      if eng.inTxn then
        ⟨Outcome.threw (CppException.logicError "unexpectedly already in a transaction"), db, []⟩
      else
        if statusOk (eng.exec "BEGIN IMMEDIATE") then
          beginSavepointStep eng {db with txn_immediate := immediate} immediate
            ["BEGIN IMMEDIATE"]
        else
          ⟨Outcome.returned (eng.exec "BEGIN IMMEDIATE"), db, ["BEGIN IMMEDIATE"]⟩
    else
      beginSavepointStep eng {db with txn_immediate := immediate} immediate []
  else
    beginSavepointStep eng db immediate []

/-- Second half of `database::endTransaction` (database.cc): issue
`RELEASE SAVEPOINT sp_<depth>`, returning its status on failure with state
unchanged; on success decrement `txn_depth_`; if the depth reached 0 and
`txn_immediate_` is set, check `in_transaction()` (throwing
`std::logic_error` if it is false) and issue the final `COMMIT` or
`ROLLBACK`, re-incrementing `txn_depth_` and returning the error if that
final statement fails. -/
def endReleaseStep (eng : Engine) (db : TxnState) (commit : Bool)
    (trace : List String) : TxnResult :=
  if statusOk (eng.exec (releaseSql db.txn_depth)) then
    if db.txn_depth - 1 = 0 ∧ db.txn_immediate = true then
      if eng.inTxn then
        if statusOk (eng.exec (if commit then "COMMIT" else "ROLLBACK")) then
          ⟨Outcome.returned Status.ok, {db with txn_depth := db.txn_depth - 1},
            trace ++ [releaseSql db.txn_depth, if commit then "COMMIT" else "ROLLBACK"]⟩
        else
          ⟨Outcome.returned (eng.exec (if commit then "COMMIT" else "ROLLBACK")),
            {db with txn_depth := db.txn_depth - 1 + 1},
            trace ++ [releaseSql db.txn_depth, if commit then "COMMIT" else "ROLLBACK"]⟩
      else
        ⟨Outcome.threw (CppException.logicError "unexpectedly not in a transaction"),
          {db with txn_depth := db.txn_depth - 1}, trace ++ [releaseSql db.txn_depth]⟩
    else
      ⟨Outcome.returned Status.ok, {db with txn_depth := db.txn_depth - 1},
        trace ++ [releaseSql db.txn_depth]⟩
  else
    ⟨Outcome.returned (eng.exec (releaseSql db.txn_depth)), db,
      trace ++ [releaseSql db.txn_depth]⟩

/-- Embeds `database::endTransaction(bool commit)` (database.cc). Throws
`std::logic_error("transaction underflow")` if `txn_depth_ <= 0`. If not
committing, first issues `ROLLBACK TO SAVEPOINT sp_<depth>`, returning its
status on failure with state unchanged; then proceeds to the release step. -/
def endTransaction (eng : Engine) (db : TxnState) (commit : Bool) : TxnResult :=
  if db.txn_depth ≤ 0 then
    ⟨Outcome.threw (CppException.logicError "transaction underflow"), db, []⟩
  else if commit then
    endReleaseStep eng db commit []
  else
    if statusOk (eng.exec (rollbackToSql db.txn_depth)) then
      endReleaseStep eng db commit [rollbackToSql db.txn_depth]
    else
      ⟨Outcome.returned (eng.exec (rollbackToSql db.txn_depth)), db,
        [rollbackToSql db.txn_depth]⟩

/-- One call in a begin/end sequence, carrying its own engine oracle
(the engine's responses may differ from call to call). -/
inductive TxnCall where
  | beginTxn (eng : Engine) (immediate : Bool)
  | endTxn (eng : Engine) (commit : Bool)

/-- Apply one call to the transaction state. -/
def applyCall (db : TxnState) : TxnCall → TxnResult
  | .beginTxn eng imm => beginTransaction eng db imm
  | .endTxn eng c => endTransaction eng db c

/-- Run a sequence of begin/end calls, threading the `database` state and
collecting each call's outcome. -/
def runCalls : List TxnCall → TxnState → TxnState × List Outcome
  | [], db => (db, [])
  | c :: cs, db =>
    let r := applyCall db c
    let rest := runCalls cs r.state
    (rest.1, r.outcome :: rest.2)

/-- Whether a call is a begin. -/
def isBegin : TxnCall → Bool
  | .beginTxn _ _ => true
  | .endTxn _ _ => false

/-- Whether a call is an end. -/
def isEnd : TxnCall → Bool
  | .beginTxn _ _ => false
  | .endTxn _ _ => true

/-- An engine that answers `ok` to every statement and reports no open
engine-level transaction. -/
def allOkEngine : Engine := ⟨fun _ => Status.ok, false⟩

/-- Like `allOkEngine` but `in_transaction()` reports true. -/
def inTxnOkEngine : Engine := ⟨fun _ => Status.ok, true⟩

/-- Embeds `checking::raise(status, msg)` (database.cc): maps a status to the C++
exception it throws. -/
def raiseExc (rc : Status) (msg : String) : CppException :=
  match rc with
  | .internal => CppException.logicError msg
  | .nomem => CppException.badAlloc
  | .range => CppException.invalidArgument msg
  | .misuse => CppException.invalidArgument msg
  | .ok | .notice | .warning | .row | .done =>
      CppException.logicError ("invalid call to throw_, err=" ++ toString rc.code)
  | _ => CppException.databaseError msg rc

/-- Embeds `checking::check(status rc)` (database.cc): if the status is not ok, and
either exceptions are enabled or the status is `misuse`, and the status is
neither `done` nor `row`, raise; otherwise return the status unchanged.
`msg` stands for the engine's current error message. -/
def check (exceptions : Bool) (msg : String) (rc : Status) : Outcome :=
  if statusOk rc = false ∧ (exceptions = true ∨ rc = Status.misuse)
      ∧ rc ≠ Status.done ∧ rc ≠ Status.row then
    Outcome.threw (raiseExc rc msg)
  else
    Outcome.returned rc

/-- Embeds `checking::check_get_db()` (database.cc): locks the weak database
reference, throwing `std::logic_error` if the database is no longer open.
`alive` is whether the weak pointer still locks. -/
def check_get_db (alive : Bool) : Except CppException Unit :=
  if alive then Except.ok () else
    Except.error (CppException.logicError "database is no longer open")

/-- The connection-lifetime state of a `database` object relevant to
`database::close`: the two statement caches (`commands_`, `queries_`, each
holding the SQL keys of its compiled statements when present), whether the
engine handle `db_` is set, the number of outstanding `shared_ptr`
references to it beyond `db_` itself (live query iterators, blob streams,
backups — so `use_count() > 1` iff `0 < liveRefs`), and the exceptions
flag. -/
structure DBConn where
  commands : Option (List String)
  queries : Option (List String)
  dbOpen : Bool
  liveRefs : Nat
  exceptions : Bool
deriving DecidableEq, Repr

/-- Embeds `database::close` (database.cc): first resets `commands_` and
`queries_` (destroying every cached compiled statement); then, if the
handle is set and `use_count() > 1`, returns `check(status::busy)` without
clearing the handle; otherwise clears the handle and returns ok. `msg`
stands for the engine's error message passed through `check`. The cache
reset touches no field the branch conditions read, so it is folded into
each branch's result state here. -/
def close (db : DBConn) (msg : String) : Outcome × DBConn :=
  if db.dbOpen then
    if 0 < db.liveRefs then
      (check db.exceptions msg Status.busy, {db with commands := none, queries := none})
    else
      (Outcome.returned Status.ok,
        {db with commands := none, queries := none, dbOpen := false})
  else
    (Outcome.returned Status.ok, {db with commands := none, queries := none})

/-- A compiled statement as held by a statement cache: its SQL text and its
mutable bound-parameter state (parameter index paired with bound value). -/
structure CachedStatement where
  sql : String
  bindings : List (Nat × String)
deriving DecidableEq, Repr

/-- A per-connection statement cache: association list from SQL text to the
cached compiled statement. -/
def StmtCache := List (String × CachedStatement)

/-- Look up a cache entry by exact SQL text. -/
def cacheLookup : StmtCache → String → Option CachedStatement
  | [], _ => none
  | e :: es, sql => if e.1 = sql then some e.2 else cacheLookup es sql

/-- Modelled from the spec: `statement_cache<STMT>::compile` lives in
sqnice/statement_cache.hh, which is not among the provided sources — only
its callers `database::command` / `database::query` (database.cc) are.
Spec contract: "compiles the statement if not already cached for this
connection, else returns the cached entry with its bindings pre-cleared."
A fresh compilation starts with no bindings. -/
def compile (cache : StmtCache) (sql : String) : CachedStatement × StmtCache :=
  match cacheLookup cache sql with
  | some st => ({st with bindings := []}, cache)
  | none =>
    let st : CachedStatement := ⟨sql, []⟩
    (st, (sql, st) :: cache)

/-- Embeds `statement::bind`: record a parameter binding on a statement. -/
def bindParam (st : CachedStatement) (idx : Nat) (v : String) : CachedStatement :=
  {st with bindings := (idx, v) :: st.bindings}

/-- Returning a used statement to the cache stores its current (possibly
still bound) state back under its SQL text. -/
def giveBack (cache : StmtCache) (st : CachedStatement) : StmtCache :=
  cache.map fun e => if e.1 = st.sql then (e.1, st) else e

/-- Modelled from the spec: the `sqnice::pool` implementation
(sqnice/pool.hh, pool.cc) is not among the provided sources — only its use
in the "SQNice pool" test case is. Spec: a bounded set of slots opened
lazily against one target; `open_count` counts open connections, split into
idle and borrowed. -/
structure PoolState where
  idle : Nat
  borrowed : Nat
  maxOpen : Nat
deriving DecidableEq, Repr

/-- Embeds `pool::open_count()`: every open connection is either idle or borrowed. -/
def PoolState.open_count (p : PoolState) : Nat := p.idle + p.borrowed

/-- A freshly constructed pool: nothing open, nothing borrowed. -/
def PoolState.mk0 (maxOpen : Nat) : PoolState := ⟨0, 0, maxOpen⟩

/-- Pool operations observable at the state level. -/
inductive PoolOp where
  | borrow
  | tryBorrow
  | release
  | closeAll

/-- Modelled from the spec: one pool state transition. `borrow`/`try_borrow`
hand out an idle slot if any, else open a new connection when the open
count is below `max_open`, else block (`borrow`) or return empty
(`try_borrow`) — in both of those last cases the state is unchanged.
`release` moves a borrowed slot back to idle. `close_all` blocks until all
borrowed connections are released, then closes every open connection; an
observation while it is still blocked sees the state unchanged. -/
def poolStep (p : PoolState) : PoolOp → PoolState
  | .borrow | .tryBorrow =>
    if 0 < p.idle then {p with idle := p.idle - 1, borrowed := p.borrowed + 1}
    else if p.open_count < p.maxOpen then {p with borrowed := p.borrowed + 1}
    else p
  | .release =>
    if 0 < p.borrowed then {p with borrowed := p.borrowed - 1, idle := p.idle + 1}
    else p
  | .closeAll =>
    if p.borrowed = 0 then {p with idle := 0} else p

/-- Run a sequence of pool operations from a state. -/
def runPool (ops : List PoolOp) (p : PoolState) : PoolState :=
  ops.foldl poolStep p

/-- A successful savepoint step increments the depth by exactly one. -/
theorem beginSavepointStep_ok_depth (eng : Engine) (db : TxnState) (imm : Bool)
    (trace : List String)
    (h : (beginSavepointStep eng db imm trace).outcome = Outcome.returned Status.ok) :
    (beginSavepointStep eng db imm trace).state.txn_depth = db.txn_depth + 1 := by
  unfold beginSavepointStep at h ⊢
  split_ifs at h ⊢ <;> simp_all [statusOk]

/-- A successful `beginTransaction` increments the depth by exactly one. -/
theorem begin_ok_depth (eng : Engine) (db : TxnState) (imm : Bool)
    (h : (beginTransaction eng db imm).outcome = Outcome.returned Status.ok) :
    (beginTransaction eng db imm).state.txn_depth = db.txn_depth + 1 := by
  unfold beginTransaction at h ⊢
  split_ifs at h ⊢ <;>
    first
      | exact beginSavepointStep_ok_depth _ _ _ _ h
      | simp_all [statusOk]

/-- A successful release step decrements the depth by exactly one. -/
theorem endReleaseStep_ok_depth (eng : Engine) (db : TxnState) (commit : Bool)
    (trace : List String)
    (h : (endReleaseStep eng db commit trace).outcome = Outcome.returned Status.ok) :
    (endReleaseStep eng db commit trace).state.txn_depth = db.txn_depth - 1 := by
  unfold endReleaseStep at h ⊢
  split_ifs at h ⊢ <;> simp_all [statusOk]

/-- A successful `endTransaction` decrements the depth by exactly one. -/
theorem end_ok_depth (eng : Engine) (db : TxnState) (commit : Bool)
    (h : (endTransaction eng db commit).outcome = Outcome.returned Status.ok) :
    (endTransaction eng db commit).state.txn_depth = db.txn_depth - 1 := by
  unfold endTransaction at h ⊢
  split_ifs at h ⊢ <;>
    first
      | exact endReleaseStep_ok_depth _ _ _ _ h
      | simp_all [statusOk]

/-- Function `beginTransaction` never decreases the depth, so it preserves
non-negativity. -/
theorem begin_depth_nonneg (eng : Engine) (db : TxnState) (imm : Bool)
    (h : 0 ≤ db.txn_depth) :
    0 ≤ (beginTransaction eng db imm).state.txn_depth := by
  unfold beginTransaction beginSavepointStep
  split_ifs <;> simp <;> omega

/-- Function `endTransaction` preserves non-negativity of the depth: the underflow
guard refuses to decrement at depth 0. -/
theorem end_depth_nonneg (eng : Engine) (db : TxnState) (commit : Bool)
    (h : 0 ≤ db.txn_depth) :
    0 ≤ (endTransaction eng db commit).state.txn_depth := by
  unfold endTransaction endReleaseStep
  split_ifs <;> simp <;> omega

/-- Every call preserves non-negativity of the depth. -/
theorem applyCall_depth_nonneg (db : TxnState) (c : TxnCall)
    (h : 0 ≤ db.txn_depth) : 0 ≤ (applyCall db c).state.txn_depth := by
  cases c with
  | beginTxn eng imm => exact begin_depth_nonneg eng db imm h
  | endTxn eng cm => exact end_depth_nonneg eng db cm h

/-- Running any sequence of calls preserves non-negativity of the depth. -/
theorem runCalls_nonneg (ops : List TxnCall) :
    ∀ db : TxnState, 0 ≤ db.txn_depth → 0 ≤ (runCalls ops db).1.txn_depth := by
  induction ops with
  | nil => intro db h; simpa [runCalls] using h
  | cons c cs ih =>
    intro db h
    simp only [runCalls]
    exact ih _ (applyCall_depth_nonneg db c h)

/-- If every call in a sequence returns `status::ok`, the final depth is the
initial depth plus the number of begins minus the number of ends. -/
theorem runCalls_balance (ops : List TxnCall) :
    ∀ db : TxnState,
      (∀ o ∈ (runCalls ops db).2, o = Outcome.returned Status.ok) →
      (runCalls ops db).1.txn_depth
        = db.txn_depth + (ops.countP isBegin : Int) - (ops.countP isEnd : Int) := by
  induction ops with
  | nil => intro db _; simp [runCalls]
  | cons c cs ih =>
    intro db hall
    have hmem : (applyCall db c).outcome ∈ (runCalls (c :: cs) db).2 := by
      simp [runCalls]
    have h0 : (applyCall db c).outcome = Outcome.returned Status.ok := hall _ hmem
    have hrest : ∀ o ∈ (runCalls cs (applyCall db c).state).2,
        o = Outcome.returned Status.ok := by
      intro o ho
      exact hall o (by simp [runCalls, ho])
    have recur := ih (applyCall db c).state hrest
    have hstep : (runCalls (c :: cs) db).1 = (runCalls cs (applyCall db c).state).1 := by
      simp [runCalls]
    rw [hstep, recur]
    cases c with
    | beginTxn eng imm =>
      have hd := begin_ok_depth eng db imm h0
      simp only [applyCall] at hd
      rw [show applyCall db (TxnCall.beginTxn eng imm) = beginTransaction eng db imm from rfl,
        hd]
      simp [List.countP_cons, isBegin, isEnd]
      omega
    | endTxn eng cm =>
      have hd := end_ok_depth eng db cm h0
      rw [show applyCall db (TxnCall.endTxn eng cm) = endTransaction eng db cm from rfl, hd]
      simp [List.countP_cons, isBegin, isEnd]
      omega

/-- C1: For every sequence of begin/end transaction calls on one connection
starting from a fresh connection, the depth is never negative; when every
call in the sequence succeeds, the depth after the sequence equals the
number of begins minus the number of ends; each successful
`beginTransaction` increments the depth by exactly one and each successful
`endTransaction` decrements it by exactly one. -/
theorem txn_depth_balance :
    (∀ ops : List TxnCall, 0 ≤ (runCalls ops TxnState.init).1.txn_depth)
  ∧ (∀ ops : List TxnCall,
      (∀ o ∈ (runCalls ops TxnState.init).2, o = Outcome.returned Status.ok) →
      (runCalls ops TxnState.init).1.txn_depth
        = (ops.countP isBegin : Int) - (ops.countP isEnd : Int))
  ∧ (∀ (eng : Engine) (db : TxnState) (imm : Bool),
      (beginTransaction eng db imm).outcome = Outcome.returned Status.ok →
      (beginTransaction eng db imm).state.txn_depth = db.txn_depth + 1)
  ∧ (∀ (eng : Engine) (db : TxnState) (commit : Bool),
      (endTransaction eng db commit).outcome = Outcome.returned Status.ok →
      (endTransaction eng db commit).state.txn_depth = db.txn_depth - 1) := by
  refine ⟨fun ops => runCalls_nonneg ops TxnState.init (by simp [TxnState.init]),
    fun ops hall => ?_, begin_ok_depth, end_ok_depth⟩
  have := runCalls_balance ops TxnState.init hall
  simpa [TxnState.init] using this

/-- Witness for C1 on a concrete two-call sequence: a deferred begin then a
committing end, every call succeeding, balances back to depth 0; a single
successful begin reaches depth 1. -/
theorem txn_depth_balance_witness :
    ((runCalls [TxnCall.beginTxn allOkEngine false, TxnCall.endTxn allOkEngine true]
        TxnState.init).1.txn_depth
      = (([TxnCall.beginTxn allOkEngine false,
            TxnCall.endTxn allOkEngine true].countP isBegin : Int)
        - ([TxnCall.beginTxn allOkEngine false,
            TxnCall.endTxn allOkEngine true].countP isEnd : Int)))
  ∧ (beginTransaction allOkEngine TxnState.init false).state.txn_depth = 0 + 1
  ∧ (endTransaction allOkEngine ⟨1, false⟩ true).state.txn_depth = 1 - 1 :=
  ⟨txn_depth_balance.2.1 _ (by decide),
    txn_depth_balance.2.2.1 allOkEngine TxnState.init false (by decide),
    txn_depth_balance.2.2.2 allOkEngine ⟨1, false⟩ true (by decide)⟩

/-- C2: calling `endTransaction` at depth 0 always throws the underflow
`std::logic_error`, regardless of the exceptions setting, the commit flag or
the engine, and leaves the state (hence the depth) unchanged with no SQL
issued. -/
theorem endTransaction_underflow (eng : Engine) (commit : Bool) (db : TxnState)
    (h : db.txn_depth = 0) :
    endTransaction eng db commit
      = ⟨Outcome.threw (CppException.logicError "transaction underflow"), db, []⟩ := by
  unfold endTransaction
  rw [if_pos (by omega)]

/-- Witness for C2: ending on a fresh connection throws underflow. -/
theorem endTransaction_underflow_witness :
    endTransaction allOkEngine TxnState.init true
      = ⟨Outcome.threw (CppException.logicError "transaction underflow"),
          TxnState.init, []⟩ :=
  endTransaction_underflow allOkEngine true TxnState.init rfl

/-- The savepoint step always issues `SAVEPOINT sp_<depth+1>` right after the
statements already traced, whatever the engine answers. -/
theorem beginSavepointStep_trace (eng : Engine) (db : TxnState) (imm : Bool)
    (trace : List String) :
    ∃ rest, (beginSavepointStep eng db imm trace).trace
      = trace ++ spSql (db.txn_depth + 1) :: rest := by
  unfold beginSavepointStep
  split_ifs
  · exact ⟨[], rfl⟩
  · exact ⟨["ROLLBACK"], rfl⟩
  · exact ⟨[], rfl⟩

/-- When the savepoint statement fails at depth 0 in immediate mode, the step
returns the error, leaves the state unchanged, and issues `ROLLBACK`. -/
theorem beginSavepointStep_fail_rollback (eng : Engine) (db : TxnState) (imm : Bool)
    (trace : List String) (h0 : db.txn_depth = 0) (him : imm = true)
    (hsp : statusOk (eng.exec (spSql 1)) = false) :
    beginSavepointStep eng db imm trace
      = ⟨Outcome.returned (eng.exec (spSql 1)), db, trace ++ [spSql 1, "ROLLBACK"]⟩ := by
  unfold beginSavepointStep
  rw [h0]
  norm_num [him, hsp]

/-- C3: for an `endTransaction` call at depth ≥ 1: with `commit = false`,
once `ROLLBACK TO SAVEPOINT sp_<d>` succeeds, `RELEASE SAVEPOINT sp_<d>` is
issued unconditionally right after it; with `commit = true` the rollback
statement is never issued — the trace is just the release, possibly followed
by the final `COMMIT`. -/
theorem endTransaction_savepoint_protocol (eng : Engine) (db : TxnState) (commit : Bool)
    (h : 1 ≤ db.txn_depth) :
    (commit = false → statusOk (eng.exec (rollbackToSql db.txn_depth)) = true →
      ∃ rest, (endTransaction eng db commit).trace
        = rollbackToSql db.txn_depth :: releaseSql db.txn_depth :: rest)
  ∧ (commit = true →
      (endTransaction eng db commit).trace = [releaseSql db.txn_depth]
      ∨ (endTransaction eng db commit).trace
          = [releaseSql db.txn_depth, "COMMIT"]) := by
  constructor
  · intro hc hrb
    subst hc
    unfold endTransaction
    rw [if_neg (by omega), if_neg (by simp), if_pos hrb]
    unfold endReleaseStep
    split_ifs <;> exact ⟨_, rfl⟩
  · intro hc
    subst hc
    unfold endTransaction
    rw [if_neg (by omega), if_pos rfl]
    unfold endReleaseStep
    split_ifs <;> simp_all

/-- Witness for C3 at depth 1 with an all-ok engine, for both commit flags. -/
theorem endTransaction_savepoint_protocol_witness :
    (∃ rest, (endTransaction allOkEngine ⟨1, false⟩ false).trace
        = rollbackToSql 1 :: releaseSql 1 :: rest)
  ∧ ((endTransaction allOkEngine ⟨1, false⟩ true).trace = [releaseSql 1]
      ∨ (endTransaction allOkEngine ⟨1, false⟩ true).trace
          = [releaseSql 1, "COMMIT"]) :=
  ⟨(endTransaction_savepoint_protocol allOkEngine ⟨1, false⟩ false (by norm_num)).1
      rfl (by decide),
    (endTransaction_savepoint_protocol allOkEngine ⟨1, false⟩ true (by norm_num)).2 rfl⟩

/-- C4: `beginTransaction(immediate = true)` at depth 0 (engine not already
in a transaction, `BEGIN IMMEDIATE` succeeding) issues `BEGIN IMMEDIATE`
before `SAVEPOINT sp_1`; and when the savepoint statement fails, a
`ROLLBACK` is issued before the error is returned, with the depth still 0. -/
theorem begin_immediate_no_partial_state (eng : Engine) (db : TxnState)
    (h0 : db.txn_depth = 0) (hin : eng.inTxn = false)
    (hbi : statusOk (eng.exec "BEGIN IMMEDIATE") = true) :
    (∃ rest, (beginTransaction eng db true).trace
        = "BEGIN IMMEDIATE" :: spSql 1 :: rest)
  ∧ (statusOk (eng.exec (spSql 1)) = false →
      beginTransaction eng db true
        = ⟨Outcome.returned (eng.exec (spSql 1)), {db with txn_immediate := true},
            ["BEGIN IMMEDIATE", spSql 1, "ROLLBACK"]⟩
      ∧ (beginTransaction eng db true).state.txn_depth = 0) := by
  have hstep : beginTransaction eng db true
      = beginSavepointStep eng {db with txn_immediate := true} true ["BEGIN IMMEDIATE"] := by
    unfold beginTransaction
    rw [if_pos h0, if_pos rfl, if_neg (by simp [hin]), if_pos hbi]
  have h0' : ({db with txn_immediate := true} : TxnState).txn_depth = 0 := h0
  constructor
  · obtain ⟨rest, hr⟩ :=
      beginSavepointStep_trace eng {db with txn_immediate := true} true ["BEGIN IMMEDIATE"]
    refine ⟨rest, ?_⟩
    rw [hstep, hr, h0']
    norm_num
  · intro hsp
    have := beginSavepointStep_fail_rollback eng {db with txn_immediate := true} true
      ["BEGIN IMMEDIATE"] h0' rfl hsp
    rw [hstep, this]
    exact ⟨rfl, h0⟩

/-- Witness for C4 with an engine that fails exactly the savepoint
statement: the rollback shows up in the trace and the depth stays 0. -/
theorem begin_immediate_no_partial_state_witness :
    (∃ rest, (beginTransaction ⟨fun s => if s = spSql 1 then Status.busy else Status.ok,
        false⟩ TxnState.init true).trace = "BEGIN IMMEDIATE" :: spSql 1 :: rest)
  ∧ (beginTransaction ⟨fun s => if s = spSql 1 then Status.busy else Status.ok,
        false⟩ TxnState.init true
      = ⟨Outcome.returned Status.busy, {TxnState.init with txn_immediate := true},
          ["BEGIN IMMEDIATE", spSql 1, "ROLLBACK"]⟩) := by
  have h := begin_immediate_no_partial_state
    ⟨fun s => if s = spSql 1 then Status.busy else Status.ok, false⟩ TxnState.init
    rfl rfl (by decide)
  refine ⟨h.1, ?_⟩
  have h2 := (h.2 (by decide)).1
  simpa using h2

/-- C5: an `endTransaction` bringing the depth from 1 to 0 with the
outermost begin in immediate mode (savepoint statements succeeding, engine
reporting an open transaction) issues the final `COMMIT` (commit = true) or
`ROLLBACK` (commit = false) as the last statement; if that final statement
succeeds the call returns ok at depth 0, and if it fails the call returns
its error with the depth re-incremented to 1. -/
theorem endTransaction_outer_commit (eng : Engine) (db : TxnState) (commit : Bool)
    (hd : db.txn_depth = 1) (him : db.txn_immediate = true) (hin : eng.inTxn = true)
    (hrel : statusOk (eng.exec (releaseSql 1)) = true)
    (hrb : commit = false → statusOk (eng.exec (rollbackToSql 1)) = true) :
    (∃ pre, (endTransaction eng db commit).trace
        = pre ++ [if commit then "COMMIT" else "ROLLBACK"])
  ∧ (statusOk (eng.exec (if commit then "COMMIT" else "ROLLBACK")) = true →
      (endTransaction eng db commit).outcome = Outcome.returned Status.ok
      ∧ (endTransaction eng db commit).state.txn_depth = 0)
  ∧ (statusOk (eng.exec (if commit then "COMMIT" else "ROLLBACK")) = false →
      (endTransaction eng db commit).outcome
          = Outcome.returned (eng.exec (if commit then "COMMIT" else "ROLLBACK"))
      ∧ (endTransaction eng db commit).state.txn_depth = 1) := by
  rcases db with ⟨d, im⟩
  obtain rfl : d = 1 := hd
  obtain rfl : im = true := him
  cases commit with
  | false =>
    have hrb' := hrb rfl
    by_cases hf : statusOk (eng.exec "ROLLBACK") = true <;>
      refine ⟨⟨[rollbackToSql 1, releaseSql 1], ?_⟩, fun hok => ?_, fun hbad => ?_⟩ <;>
        simp_all [endTransaction, endReleaseStep]
  | true =>
    by_cases hf : statusOk (eng.exec "COMMIT") = true <;>
      refine ⟨⟨[releaseSql 1], ?_⟩, fun hok => ?_, fun hbad => ?_⟩ <;>
        simp_all [endTransaction, endReleaseStep]

/-- Witness for C5: at depth 1 in immediate mode, with an engine failing
exactly the final `COMMIT`, the call surfaces that error at depth 1; with an
all-ok engine it commits down to depth 0. -/
theorem endTransaction_outer_commit_witness :
    ((endTransaction ⟨fun s => if s = "COMMIT" then Status.busy else Status.ok, true⟩
        ⟨1, true⟩ true).outcome = Outcome.returned Status.busy
      ∧ (endTransaction ⟨fun s => if s = "COMMIT" then Status.busy else Status.ok, true⟩
          ⟨1, true⟩ true).state.txn_depth = 1)
  ∧ ((endTransaction inTxnOkEngine ⟨1, true⟩ true).outcome = Outcome.returned Status.ok
      ∧ (endTransaction inTxnOkEngine ⟨1, true⟩ true).state.txn_depth = 0) := by
  constructor
  · have h := endTransaction_outer_commit
      ⟨fun s => if s = "COMMIT" then Status.busy else Status.ok, true⟩
      ⟨1, true⟩ true rfl rfl rfl (by decide) (by intro hc; exact absurd hc (by decide))
    have h2 := h.2.2 (by decide)
    simpa using h2
  · have h := endTransaction_outer_commit inTxnOkEngine ⟨1, true⟩ true rfl rfl rfl
      (by decide) (by intro hc; exact absurd hc (by decide))
    have h2 := h.2.1 (by decide)
    simpa using h2

/-- C10: for an `endTransaction` call at depth ≥ 1, a failing
`ROLLBACK TO SAVEPOINT sp_<d>` (commit = false) or a failing
`RELEASE SAVEPOINT sp_<d>` makes the call return that error with the state
— in particular the depth — unchanged: the decrement happens only after both
savepoint statements succeed. -/
theorem endTransaction_savepoint_failure_keeps_state (eng : Engine) (db : TxnState)
    (commit : Bool) (h : 1 ≤ db.txn_depth) :
    (commit = false → statusOk (eng.exec (rollbackToSql db.txn_depth)) = false →
      endTransaction eng db commit
        = ⟨Outcome.returned (eng.exec (rollbackToSql db.txn_depth)), db,
            [rollbackToSql db.txn_depth]⟩)
  ∧ ((commit = false → statusOk (eng.exec (rollbackToSql db.txn_depth)) = true) →
      statusOk (eng.exec (releaseSql db.txn_depth)) = false →
      (endTransaction eng db commit).outcome
          = Outcome.returned (eng.exec (releaseSql db.txn_depth))
      ∧ (endTransaction eng db commit).state = db) := by
  constructor
  · intro hc hrb
    subst hc
    unfold endTransaction
    rw [if_neg (by omega), if_neg (by simp), if_neg (by simp [hrb])]
  · intro hrb hrel
    have hstep : endTransaction eng db commit
        = endReleaseStep eng db commit
            (if commit then [] else [rollbackToSql db.txn_depth]) := by
      cases commit with
      | false =>
        unfold endTransaction
        rw [if_neg (by omega), if_neg (by simp), if_pos (hrb rfl)]
        norm_num
      | true =>
        unfold endTransaction
        rw [if_neg (by omega), if_pos rfl]
        norm_num
    rw [hstep]
    unfold endReleaseStep
    rw [if_neg (by simp [hrel])]
    exact ⟨rfl, rfl⟩

/-- Witness for C10: at depth 2 with an engine failing exactly the rollback
statement, the call returns the error with the state unchanged; with an
engine failing exactly the release, likewise. -/
theorem endTransaction_savepoint_failure_keeps_state_witness :
    (endTransaction ⟨fun s => if s = rollbackToSql 2 then Status.busy else Status.ok,
        false⟩ ⟨2, false⟩ false
      = ⟨Outcome.returned Status.busy, ⟨2, false⟩, [rollbackToSql 2]⟩)
  ∧ ((endTransaction ⟨fun s => if s = releaseSql 2 then Status.locked else Status.ok,
        false⟩ ⟨2, false⟩ true).outcome = Outcome.returned Status.locked
      ∧ (endTransaction ⟨fun s => if s = releaseSql 2 then Status.locked else Status.ok,
          false⟩ ⟨2, false⟩ true).state = (⟨2, false⟩ : TxnState)) := by
  constructor
  · have h := (endTransaction_savepoint_failure_keeps_state
      ⟨fun s => if s = rollbackToSql 2 then Status.busy else Status.ok, false⟩
      ⟨2, false⟩ false (by norm_num)).1 rfl (by decide)
    simpa using h
  · have h := (endTransaction_savepoint_failure_keeps_state
      ⟨fun s => if s = releaseSql 2 then Status.locked else Status.ok, false⟩
      ⟨2, false⟩ true (by norm_num)).2
      (by intro hc; exact absurd hc (by decide)) (by decide)
    simpa using h

/-- Evaluating `check` on a `busy` status: raises `database_error` iff exceptions are
enabled, else returns the status. -/
theorem check_busy (exceptions : Bool) (msg : String) :
    check exceptions msg Status.busy
      = if exceptions then Outcome.threw (CppException.databaseError msg Status.busy)
        else Outcome.returned Status.busy := by
  cases exceptions <;> rfl

/-- C6: `database::close` resets both statement caches before returning, in
every branch; when the handle is still referenced by live query iterators,
blob streams or backups, the close reports `busy` (returned, or thrown as a
`database_error` when exceptions are enabled) and the connection stays
open; with no such references the connection is closed and ok returned. -/
theorem close_invalidates_caches (db : DBConn) (msg : String) :
    ((close db msg).2.commands = none ∧ (close db msg).2.queries = none)
  ∧ (db.dbOpen = true → 0 < db.liveRefs →
      (close db msg).2.dbOpen = true
      ∧ ((close db msg).1 = Outcome.returned Status.busy
        ∨ (close db msg).1 = Outcome.threw (CppException.databaseError msg Status.busy)))
  ∧ (db.liveRefs = 0 →
      (close db msg).2.dbOpen = false ∧ (close db msg).1 = Outcome.returned Status.ok) := by
  refine ⟨?_, fun hopen href => ?_, fun h0 => ?_⟩
  · unfold close
    split_ifs <;> exact ⟨rfl, rfl⟩
  · unfold close
    rw [if_pos hopen, if_pos href]
    refine ⟨hopen, ?_⟩
    rw [check_busy]
    cases he : db.exceptions with
    | false => left; rfl
    | true => right; rfl
  · unfold close
    by_cases hopen : db.dbOpen = true
    · rw [if_pos hopen, if_neg (by omega)]
      exact ⟨rfl, rfl⟩
    · rw [if_neg hopen]
      exact ⟨by simp_all, rfl⟩

/-- Witness for C6: a connection with two live references stays open and
reports busy; one with none closes with ok; caches are gone either way. -/
theorem close_invalidates_caches_witness :
    ((close ⟨some ["SELECT 1"], some [], true, 2, false⟩ "m").2.commands = none
      ∧ (close ⟨some ["SELECT 1"], some [], true, 2, false⟩ "m").2.queries = none)
  ∧ ((close ⟨some ["SELECT 1"], some [], true, 2, false⟩ "m").2.dbOpen = true
      ∧ ((close ⟨some ["SELECT 1"], some [], true, 2, false⟩ "m").1
            = Outcome.returned Status.busy
        ∨ (close ⟨some ["SELECT 1"], some [], true, 2, false⟩ "m").1
            = Outcome.threw (CppException.databaseError "m" Status.busy)))
  ∧ ((close ⟨some ["SELECT 1"], some [], true, 0, true⟩ "m").2.dbOpen = false
      ∧ (close ⟨some ["SELECT 1"], some [], true, 0, true⟩ "m").1
          = Outcome.returned Status.ok) :=
  ⟨(close_invalidates_caches ⟨some ["SELECT 1"], some [], true, 2, false⟩ "m").1,
    (close_invalidates_caches ⟨some ["SELECT 1"], some [], true, 2, false⟩ "m").2.1
      rfl (by norm_num),
    (close_invalidates_caches ⟨some ["SELECT 1"], some [], true, 0, true⟩ "m").2.2 rfl⟩

/-- Any `compile` hands out a statement with no bindings: a fresh
compilation starts clean, and a cache hit is returned with its bindings
pre-cleared. -/
theorem compile_fst_bindings (cache : StmtCache) (sql : String) :
    (compile cache sql).1.bindings = [] := by
  unfold compile
  cases h : cacheLookup cache sql <;> simp [h]

/-- C7: two `compile(S)` calls on the same connection without an
intervening close return statements with independent execution state: every
compiled statement is handed out with empty bindings, and in particular the
second `compile(S)` returns cleared bindings even after the first statement
was bound arbitrarily and put back into the cache still bound. -/
theorem compile_bindings_independent :
    (∀ (cache : StmtCache) (sql : String), (compile cache sql).1.bindings = [])
  ∧ (∀ (cache : StmtCache) (sql : String) (bs : List (Nat × String)),
      (compile (giveBack (compile cache sql).2
          (bs.foldl (fun st p => bindParam st p.1 p.2) (compile cache sql).1)) sql).1.bindings
        = []) :=
  ⟨compile_fst_bindings, fun _ sql _ => compile_fst_bindings _ sql⟩

/-- C8: misuse-class conditions are always raised, never returned as status
codes, even with exceptions disabled: `check` on `status::misuse` throws
`std::invalid_argument` for every exceptions setting; a begin/end imbalance
makes `endTransaction` throw the underflow `std::logic_error`; and
operating through a dead database reference throws `std::logic_error`. -/
theorem misuse_always_raised :
    (∀ (exceptions : Bool) (msg : String),
      check exceptions msg Status.misuse
        = Outcome.threw (CppException.invalidArgument msg))
  ∧ (∀ (eng : Engine) (db : TxnState) (commit : Bool), db.txn_depth ≤ 0 →
      (endTransaction eng db commit).outcome
        = Outcome.threw (CppException.logicError "transaction underflow"))
  ∧ check_get_db false
      = Except.error (CppException.logicError "database is no longer open") := by
  refine ⟨fun exc msg => ?_, fun eng db commit h => ?_, rfl⟩
  · cases exc <;> rfl
  · unfold endTransaction
    rw [if_pos h]

/-- Witness for C8: with exceptions disabled, `check` still throws on
misuse, and an unmatched end on a fresh connection still throws. -/
theorem misuse_always_raised_witness :
    check false "m" Status.misuse = Outcome.threw (CppException.invalidArgument "m")
  ∧ (endTransaction allOkEngine TxnState.init false).outcome
      = Outcome.threw (CppException.logicError "transaction underflow") :=
  ⟨misuse_always_raised.1 false "m",
    misuse_always_raised.2.1 allOkEngine TxnState.init false (by decide)⟩

/-- A pool step never changes the configured maximum. -/
theorem poolStep_maxOpen (p : PoolState) (op : PoolOp) :
    (poolStep p op).maxOpen = p.maxOpen := by
  cases op <;> unfold poolStep <;> split_ifs <;> rfl

/-- A pool step preserves `open_count ≤ maxOpen`. -/
theorem poolStep_open_le (p : PoolState) (op : PoolOp)
    (h : p.open_count ≤ p.maxOpen) :
    (poolStep p op).open_count ≤ (poolStep p op).maxOpen := by
  cases op <;> unfold poolStep <;> split_ifs <;>
    simp_all [PoolState.open_count] <;> omega

/-- Running `runPool` preserves the configured maximum. -/
theorem runPool_maxOpen (ops : List PoolOp) :
    ∀ p : PoolState, (runPool ops p).maxOpen = p.maxOpen := by
  induction ops with
  | nil => intro p; rfl
  | cons op ops ih =>
    intro p
    rw [show runPool (op :: ops) p = runPool ops (poolStep p op) from rfl, ih,
      poolStep_maxOpen]

/-- Running `runPool` preserves `open_count ≤ maxOpen`. -/
theorem runPool_open_le (ops : List PoolOp) :
    ∀ p : PoolState, p.open_count ≤ p.maxOpen →
      (runPool ops p).open_count ≤ (runPool ops p).maxOpen := by
  induction ops with
  | nil => intro p h; exact h
  | cons op ops ih =>
    intro p h
    rw [show runPool (op :: ops) p = runPool ops (poolStep p op) from rfl]
    exact ih _ (poolStep_open_le p op h)

/-- C9: at every observation point of a pool run from a fresh pool,
`borrowed_count ≤ open_count ≤ max_open`, and `open_count − borrowed_count`
equals the number of idle slots. -/
theorem pool_counters_invariant (maxOpen : Nat) (ops : List PoolOp) :
    (runPool ops (PoolState.mk0 maxOpen)).borrowed
        ≤ (runPool ops (PoolState.mk0 maxOpen)).open_count
  ∧ (runPool ops (PoolState.mk0 maxOpen)).open_count ≤ maxOpen
  ∧ (runPool ops (PoolState.mk0 maxOpen)).open_count
        - (runPool ops (PoolState.mk0 maxOpen)).borrowed
      = (runPool ops (PoolState.mk0 maxOpen)).idle := by
  refine ⟨?_, ?_, ?_⟩
  · simp only [PoolState.open_count]
    omega
  · have h := runPool_open_le ops (PoolState.mk0 maxOpen)
      (by simp [PoolState.mk0, PoolState.open_count])
    rwa [runPool_maxOpen ops (PoolState.mk0 maxOpen)] at h
  · simp only [PoolState.open_count]
    omega

end Sqnice
